import Mathlib

/-!
# Verification of the render-failure containment wrapper

Shallow embedding of the repository's React error-boundary components:

* `ErrorBoundary` (advanced version in `src/unnamed/part_001`): state
  `{ hasError, error }`, hooks `getDerivedStateFromError`,
  `componentDidCatch` / `logErrorToService` (log-only), the `retry`
  callback, and `render`.
* `ErrorFallback` (`src/src/components/ErrorFallback.jsx`): the fallback
  panel, gated on the `import.meta.env.DEV` flag.
* `AsyncBuggyComponent` (`src/src/components/AsyncComponent.jsx`): a
  button whose click handler throws.
* `BuggyComponent` and the `App` tree (`src/src/App.jsx`).

The synchronous render-pass protocol of the host runtime (the part that
catches a failure raised while constructing a boundary's children and
feeds it to the boundary's capture hook) is not in the repository's
sources; it is modelled from the spec where noted.
-/

namespace Containment

/-- A JavaScript `Error` value: the fields the code reads (`message`). -/
structure Failure where
  message : String
deriving DecidableEq, Repr

/-- Callbacks (bound methods passed as props, e.g. `this.retry`) are
identified abstractly by an id; the embedding never invokes them through
an `Output`, it only records which callback is wired where. -/
abbrev Callback := Nat

/-- The id of the boundary's bound `this.retry` method. -/
def retryCallback : Callback := 0

/-- The id of `AsyncBuggyComponent`'s `handleClick` handler. -/
def clickCallback : Callback := 1

/-- Rendered output: a DOM-like tree of elements, text and buttons. -/
inductive Output where
  | text (s : String)
  | elem (tag : String) (child : Output)
  | seq (a b : Output)
  | button (onClick : Callback) (label : String)
  | nil
deriving DecidableEq, Repr

/-- `ErrorBoundary` component state, from the constructor in
`src/unnamed/part_001`: `this.state = { hasError: false, error: null }`. -/
structure EBState where
  hasError : Bool
  error : Option Failure
deriving DecidableEq, Repr

/-- The state installed by the constructor. -/
def initialState : EBState := { hasError := false, error := none }

/-- `static getDerivedStateFromError(error)` from `src/unnamed/part_001`:
`return { hasError: true, error: error }`. Both fields are specified, so
the merge-update installs exactly this state. -/
def getDerivedStateFromError (e : Failure) : EBState :=
  { hasError := true, error := some e }

/-- `retry = () => this.setState({ hasError: false })` from
`src/unnamed/part_001`. React's `setState` merges the partial object into
the current state, so only `hasError` is written; `error` keeps its
current value. -/
def retry (s : EBState) : EBState :=
  { s with hasError := false }

/-- `ErrorFallback` from `src/src/components/ErrorFallback.jsx`. `dev` is
`import.meta.env.DEV`. When `dev` is true the details block renders
`<pre>{error.message}</pre>`; if `error` is `null` this property access
raises a `TypeError`, modelled as the `.error` branch. When `dev` is
false the details block is not rendered and `error` is never read. -/
def errorFallback (dev : Bool) (error : Option Failure) (retry : Callback) :
    Except Failure Output :=
  match dev, error with
  | true, none =>
      .error { message := "TypeError: Cannot read properties of null (reading 'message')" }
  | true, some e =>
      .ok (.elem "div" (.seq
        (.elem "h2" (.text "Oops! Something went wrong"))
        (.seq (.elem "p" (.text "We're sorry, but something unexpected happened."))
        (.seq (.button retry "Try again")
        (.elem "details" (.seq
          (.elem "summary" (.text "Error details (dev only)"))
          (.elem "pre" (.text e.message))))))))
  | false, _ =>
      .ok (.elem "div" (.seq
        (.elem "h2" (.text "Oops! Something went wrong"))
        (.seq (.elem "p" (.text "We're sorry, but something unexpected happened."))
        (.seq (.button retry "Try again") .nil))))

/-- A component tree as seen by one construction pass: components whose
render is a fixed output, components whose construction raises, sibling
composition, and `ErrorBoundary` nodes carrying their current state. -/
inductive Tree where
  | static (out : Output)
  | throws (e : Failure)
  | sib (a b : Tree)
  | boundary (s : EBState) (child : Tree)
deriving DecidableEq, Repr

/-- Modelled from the spec: one synchronous construction pass of the host
rendering runtime (not part of the repository's sources). Constructing a
`throws` node raises; a raised failure propagates up siblings until it
meets an `ErrorBoundary`, whose own method bodies are taken from the
source: a healthy boundary renders its children, and if their
construction raises `e` the runtime invokes `getDerivedStateFromError e`
once and re-renders the boundary, which per `ErrorBoundary.render`
produces `ErrorFallback` with the captured error and the bound retry
callback; a boundary already in the failed state renders the fallback
directly. The pass returns the tree with committed boundary states and
the overall result. -/
def renderPass (dev : Bool) : Tree → Tree × Except Failure Output
  | .static o => (.static o, .ok o)
  | .throws e => (.throws e, .error e)
  | .sib a b =>
      match renderPass dev a with
      | (a2, .error e) => (.sib a2 b, .error e)
      | (a2, .ok oa) =>
          match renderPass dev b with
          | (b2, .error e) => (.sib a2 b2, .error e)
          | (b2, .ok ob) => (.sib a2 b2, .ok (.seq oa ob))
  | .boundary s child =>
      if s.hasError then
        (.boundary s child, errorFallback dev s.error retryCallback)
      else
        match renderPass dev child with
        | (child2, .ok o) => (.boundary s child2, .ok o)
        | (child2, .error e) =>
            let s2 := getDerivedStateFromError e
            (.boundary s2 child2, errorFallback dev s2.error retryCallback)

/-- `true` when the subtree contains no `ErrorBoundary` node, so any
failure raised inside it during a pass is first captured by the wrapper
put around it. -/
def boundaryFree : Tree → Bool
  | .static _ => true
  | .throws _ => true
  | .sib a b => boundaryFree a && boundaryFree b
  | .boundary _ _ => false

/-- Number of invocations of `getDerivedStateFromError` performed by
`renderPass dev t` (instrumentation of the pass: the hook fires exactly
in the boundary-catches-child-failure branch). -/
def hookCount (dev : Bool) : Tree → Nat
  | .static _ => 0
  | .throws _ => 0
  | .sib a b =>
      match renderPass dev a with
      | (_, .error _) => hookCount dev a
      | (_, .ok _) => hookCount dev a + hookCount dev b
  | .boundary s child =>
      if s.hasError then 0
      else
        match renderPass dev child with
        | (_, .ok _) => hookCount dev child
        | (_, .error _) => hookCount dev child + 1

/-- The operations of the `ErrorBoundary` class in `src/unnamed/part_001`
that the runtime or the user can invoke on a mounted instance, as they
affect component state: the capture hook, the logging hooks
(`componentDidCatch`, which only logs and calls `logErrorToService`),
the `retry` callback, and `render` (a pure read). The class defines no
timer and no other state write. -/
inductive BoundaryOp where
  | capture (e : Failure)
  | didCatch (e : Failure)
  | logToService (e : Failure)
  | retryOp
  | renderOp
deriving DecidableEq, Repr

/-- Effect of each `ErrorBoundary` operation on the component state.
`capture` installs the state returned by `getDerivedStateFromError`;
`componentDidCatch` and `logErrorToService` only write to the console;
`retry` performs its `setState`; `render` reads state without writing. -/
def stepOp : BoundaryOp → EBState → EBState
  | .capture e, _ => getDerivedStateFromError e
  | .didCatch _, s => s
  | .logToService _, s => s
  | .retryOp, s => retry s
  | .renderOp, s => s

/-- `AsyncBuggyComponent`'s `handleClick` from
`src/src/components/AsyncComponent.jsx`: unconditionally
`throw new Error('Event handler error!')`. -/
def asyncBuggyHandleClick : Except Failure Unit :=
  .error { message := "Event handler error!" }

/-- `AsyncBuggyComponent`'s render output: a button wired to
`handleClick`. -/
def asyncBuggyComponent : Output :=
  .button clickCallback "Click to break (not caught!)"

/-- Modelled from the spec: event dispatch by the host runtime executes
outside any construction pass, so no boundary capture hook is consulted;
all boundary states in the tree are left unchanged and the handler's
outcome (including a raised failure) propagates past every wrapper to
the runtime's default handling. -/
def dispatchEvent (t : Tree) (handler : Except Failure Unit) :
    Tree × Except Failure Unit :=
  (t, handler)

/-- `BuggyComponent` from `src/src/App.jsx`'s imports
(`src/src/components/BuggyComponent`): throws `'Random crash!'` when
`shouldThrow` and the 50% random draw (`shouldError`) are both true,
otherwise renders a fixed div. -/
def buggyTree (shouldThrow shouldError : Bool) : Tree :=
  if shouldThrow && shouldError then .throws { message := "Random crash!" }
  else .static (.elem "div" (.text "I am working fine!"))

/-- The user-profile sibling in `App` (`src/src/App.jsx`): a plain div
with no failure mode. -/
def userProfile : Output :=
  .elem "div" (.seq (.elem "h3" (.text "User Profile"))
    (.elem "p" (.text "User: John Doe")))

/-- The chat widget section of `App`: a local `ErrorBoundary` around the
heading and `BuggyComponent shouldThrow={true}`. -/
def chatWidget (shouldError : Bool) : Tree :=
  .boundary initialState
    (.sib (.static (.elem "h3" (.text "Chat Widget"))) (buggyTree true shouldError))

/-- The `App` tree from `src/src/App.jsx`: a global `ErrorBoundary`
around the dashboard heading, the locally wrapped chat widget, and the
unwrapped user-profile div. -/
def appTree (shouldError : Bool) : Tree :=
  .boundary initialState
    (.sib (.static (.elem "h1" (.text "My Dashboard")))
      (.sib (chatWidget shouldError) (.static userProfile)))

/-! ## Theorems -/

/-- Any boundary-free subtree performs no hook invocations of its own. -/
theorem hookCount_eq_zero_of_boundaryFree (dev : Bool) :
    ∀ t : Tree, boundaryFree t = true → hookCount dev t = 0 := by
  intro t
  induction t with
  | static o => intro _; rfl
  | throws e => intro _; rfl
  | sib a b iha ihb =>
      intro h
      rw [boundaryFree, Bool.and_eq_true] at h
      rw [hookCount]
      rcases hra : renderPass dev a with ⟨a2, ra⟩
      cases ra with
      | error e => simpa using iha h.1
      | ok oa =>
          rcases hrb : renderPass dev b with ⟨b2, rb⟩
          cases rb with
          | error e => simp [iha h.1, ihb h.2]
          | ok ob => simp [iha h.1, ihb h.2]
  | boundary s child ih =>
      intro h
      simp [boundaryFree] at h

/-- C1: wrapping a subtree whose construction raises `e` (at any depth)
in a fresh `ErrorBoundary` does not propagate the failure: after the
pass the boundary's state is failed with the failure captured, its
output is the `ErrorFallback` view instead of the subtree's output, and
the overall result is a success, never a propagated failure. -/
theorem boundary_contains_failure (dev : Bool) (t : Tree) (e : Failure)
    (h : (renderPass dev t).2 = Except.error e) :
    (renderPass dev (Tree.boundary initialState t)).1
        = Tree.boundary { hasError := true, error := some e } (renderPass dev t).1
    ∧ (renderPass dev (Tree.boundary initialState t)).2
        = errorFallback dev (some e) retryCallback
    ∧ ∃ o, (renderPass dev (Tree.boundary initialState t)).2 = Except.ok o := by
  rcases hrp : renderPass dev t with ⟨t2, r⟩
  rw [hrp] at h
  simp only at h
  subst h
  refine ⟨?_, ?_, ?_⟩
  · simp [renderPass, initialState, hrp, getDerivedStateFromError]
  · simp [renderPass, initialState, hrp, getDerivedStateFromError]
  · cases dev with
    | false =>
        simp only [renderPass, initialState, hrp, getDerivedStateFromError, errorFallback]
        exact ⟨_, rfl⟩
    | true =>
        simp only [renderPass, initialState, hrp, getDerivedStateFromError, errorFallback]
        exact ⟨_, rfl⟩

/-- Witness for C1 at a concrete input: a directly throwing subtree,
production flag. -/
theorem boundary_contains_failure_witness :
    (renderPass false (Tree.throws { message := "boom" })).2
        = Except.error { message := "boom" }
    ∧ ((renderPass false (Tree.boundary initialState (Tree.throws { message := "boom" }))).1
        = Tree.boundary { hasError := true, error := some { message := "boom" } }
            (renderPass false (Tree.throws { message := "boom" })).1
      ∧ (renderPass false (Tree.boundary initialState (Tree.throws { message := "boom" }))).2
        = errorFallback false (some { message := "boom" }) retryCallback
      ∧ ∃ o, (renderPass false (Tree.boundary initialState (Tree.throws { message := "boom" }))).2
        = Except.ok o) :=
  ⟨rfl, boundary_contains_failure false (Tree.throws { message := "boom" })
    { message := "boom" } rfl⟩

/-- C2 counterexample: `retry` on a failed state with a captured failure
does not reset `capturedFailure` to none — `setState({ hasError: false })`
merges, leaving `error` untouched, so the claim "both fields reset" is
false at this input. -/
theorem retry_does_not_clear_error :
    retry { hasError := true, error := some { message := "boom" } }
      ≠ { hasError := false, error := none } := by
  decide

/-- C2 (amended): `Retry()` sets `failed=false` and leaves
`capturedFailure` unchanged (it is not reset to none), triggering a
fresh construction attempt of the children: a subsequent pass of the
boundary with the retried state re-renders the children and, when their
construction succeeds, produces their output. -/
theorem retry_resets_flag_keeps_error (s : EBState) (dev : Bool) (t : Tree) (o : Output)
    (h : (renderPass dev t).2 = Except.ok o) :
    (retry s).hasError = false
    ∧ (retry s).error = s.error
    ∧ (renderPass dev (Tree.boundary (retry s) t)).2 = Except.ok o := by
  refine ⟨rfl, rfl, ?_⟩
  rcases hrp : renderPass dev t with ⟨t2, r⟩
  rw [hrp] at h
  simp only at h
  subst h
  simp [renderPass, retry, hrp]

/-- Witness for the amended C2 at a concrete input. -/
theorem retry_resets_flag_keeps_error_witness :
    (retry { hasError := true, error := some { message := "boom" } }).hasError = false
    ∧ (retry { hasError := true, error := some { message := "boom" } }).error
        = ({ hasError := true, error := some { message := "boom" } } : EBState).error
    ∧ (renderPass false
        (Tree.boundary (retry { hasError := true, error := some { message := "boom" } })
          (Tree.static Output.nil))).2 = Except.ok Output.nil :=
  retry_resets_flag_keeps_error { hasError := true, error := some { message := "boom" } }
    false (Tree.static Output.nil) Output.nil rfl

/-- C3: the failure-capture hook records the failure — its result has
`failed=true` and `capturedFailure` equal to the captured failure — and
during a failure episode (healthy boundary, boundary-free subtree whose
construction raises `e`) the boundary's committed state is exactly one
application of the hook: the hook fires exactly once in the pass. -/
theorem capture_hook_records_failure_once (dev : Bool) (s : EBState) (t : Tree) (e : Failure)
    (hs : s.hasError = false) (hb : boundaryFree t = true)
    (h : (renderPass dev t).2 = Except.error e) :
    getDerivedStateFromError e = { hasError := true, error := some e }
    ∧ (renderPass dev (Tree.boundary s t)).1
        = Tree.boundary (getDerivedStateFromError e) (renderPass dev t).1
    ∧ hookCount dev (Tree.boundary s t) = 1 := by
  rcases hrp : renderPass dev t with ⟨t2, r⟩
  rw [hrp] at h
  simp only at h
  subst h
  refine ⟨rfl, ?_, ?_⟩
  · simp [renderPass, hs, hrp]
  · simp [hookCount, hs, hrp, hookCount_eq_zero_of_boundaryFree dev t hb]

/-- Witness for C3 at a concrete input. -/
theorem capture_hook_records_failure_once_witness :
    getDerivedStateFromError { message := "boom" }
        = { hasError := true, error := some { message := "boom" } }
    ∧ (renderPass false (Tree.boundary initialState (Tree.throws { message := "boom" }))).1
        = Tree.boundary (getDerivedStateFromError { message := "boom" })
            (renderPass false (Tree.throws { message := "boom" })).1
    ∧ hookCount false (Tree.boundary initialState (Tree.throws { message := "boom" })) = 1 :=
  capture_hook_records_failure_once false initialState
    (Tree.throws { message := "boom" }) { message := "boom" } rfl rfl rfl

/-- C4: a failure raised from an event-response callback is not captured
by a wrapping boundary: dispatching `AsyncBuggyComponent`'s click
handler leaves the wrapper's state exactly as it was (a healthy wrapper
stays healthy) and the failure propagates past the wrapper. -/
theorem event_handler_failure_not_captured (s : EBState) :
    dispatchEvent (Tree.boundary s (Tree.static asyncBuggyComponent)) asyncBuggyHandleClick
      = (Tree.boundary s (Tree.static asyncBuggyComponent),
         Except.error { message := "Event handler error!" }) :=
  rfl

/-- C5 counterexample: with the development flag set and a null failure,
rendering `ErrorFallback` raises — `<pre>{error.message}</pre>` reads
`message` off `null` — so it is not failure-free for every input pair
including `failure=null`. -/
theorem errorFallback_raises_on_null_failure_in_dev :
    errorFallback true none retryCallback
      = Except.error
          { message := "TypeError: Cannot read properties of null (reading 'message')" } :=
  rfl

/-- C5 (amended): the Fallback View is a pure presentational unit (a
pure function of its inputs in this embedding, with no internal state);
for every input pair (failure, retry) it renders a fixed structure
without raising whenever the development flag is off or the failure is
non-null; with the development flag on and `failure=null` it raises a
TypeError. -/
theorem errorFallback_total_unless_dev_and_null (dev : Bool) (f : Option Failure) (r : Callback)
    (h : dev = false ∨ f ≠ none) :
    ∃ o, errorFallback dev f r = Except.ok o := by
  cases dev with
  | false => exact ⟨_, rfl⟩
  | true =>
      cases f with
      | some e => exact ⟨_, rfl⟩
      | none =>
          rcases h with h | h
          · exact absurd h (by simp)
          · exact absurd rfl h

/-- Witness for the amended C5 at a concrete input. -/
theorem errorFallback_total_unless_dev_and_null_witness :
    ∃ o, errorFallback false none retryCallback = Except.ok o :=
  errorFallback_total_unless_dev_and_null false none retryCallback (Or.inl rfl)

/-- C6: the `failed` flag machine has exactly the two transitions the
spec names: among all operations of the class, a healthy state can only
become failed through the capture hook, a failed state can only become
healthy through `retry`, and `render`, `componentDidCatch` and
`logErrorToService` never change the state (the class defines no timer,
so there is no auto-recovery operation). -/
theorem state_machine_two_transitions (op : BoundaryOp) (s : EBState) :
    ((s.hasError = false ∧ (stepOp op s).hasError = true)
        → ∃ e, op = BoundaryOp.capture e)
    ∧ ((s.hasError = true ∧ (stepOp op s).hasError = false)
        → op = BoundaryOp.retryOp)
    ∧ stepOp BoundaryOp.renderOp s = s
    ∧ (∀ e, stepOp (BoundaryOp.didCatch e) s = s)
    ∧ (∀ e, stepOp (BoundaryOp.logToService e) s = s) := by
  refine ⟨?_, ?_, rfl, fun _ => rfl, fun _ => rfl⟩
  · rintro ⟨h1, h2⟩
    cases op with
    | capture e => exact ⟨e, rfl⟩
    | didCatch e => rw [stepOp, h1] at h2; exact absurd h2 (by simp)
    | logToService e => rw [stepOp, h1] at h2; exact absurd h2 (by simp)
    | retryOp => simp [stepOp, retry] at h2
    | renderOp => rw [stepOp, h1] at h2; exact absurd h2 (by simp)
  · rintro ⟨h1, h2⟩
    cases op with
    | capture e => simp [stepOp, getDerivedStateFromError] at h2
    | didCatch e => rw [stepOp, h1] at h2; exact absurd h2 (by simp)
    | logToService e => rw [stepOp, h1] at h2; exact absurd h2 (by simp)
    | retryOp => rfl
    | renderOp => rw [stepOp, h1] at h2; exact absurd h2 (by simp)

/-- Witness for C6: the healthy-to-failed transition at a concrete
capture operation and the initial state. -/
theorem state_machine_two_transitions_witness :
    ∃ e, BoundaryOp.capture { message := "boom" } = BoundaryOp.capture e :=
  (state_machine_two_transitions (BoundaryOp.capture { message := "boom" }) initialState).1
    ⟨rfl, rfl⟩

/-- C7: `Retry()` is idempotent on a healthy wrapper: when
`failed=false`, `retry` leaves the whole state unchanged — its
`setState` writes `hasError := false`, already the current value, and
touches nothing else. -/
theorem retry_noop_on_healthy (s : EBState) (h : s.hasError = false) :
    retry s = s := by
  cases s with
  | mk he er =>
      simp only at h
      subst h
      rfl

/-- Witness for C7 at the initial (healthy) state. -/
theorem retry_noop_on_healthy_witness : retry initialState = initialState :=
  retry_noop_on_healthy initialState rfl

/-- C8: the wrapper is re-entrant: starting from any failed state, after
`retry` the next pass re-attempts the children, and if their
construction raises a new failure the wrapper re-enters the failed state
with `capturedFailure` equal to the new failure (overwriting the
previous one) and renders the fallback for it. -/
theorem boundary_reentrant (dev : Bool) (s : EBState) (t : Tree) (f2 : Failure)
    (_hs : s.hasError = true)
    (h : (renderPass dev t).2 = Except.error f2) :
    (renderPass dev (Tree.boundary (retry s) t)).1
      = Tree.boundary { hasError := true, error := some f2 } (renderPass dev t).1
    ∧ (renderPass dev (Tree.boundary (retry s) t)).2
      = errorFallback dev (some f2) retryCallback := by
  rcases hrp : renderPass dev t with ⟨t2, r⟩
  rw [hrp] at h
  simp only at h
  subst h
  constructor <;> simp [renderPass, retry, hrp, getDerivedStateFromError]

/-- Witness for C8: a wrapper failed with an old failure, retried, whose
subtree then raises a new one. -/
theorem boundary_reentrant_witness :
    (renderPass false
        (Tree.boundary (retry { hasError := true, error := some { message := "old" } })
          (Tree.throws { message := "new" }))).1
      = Tree.boundary { hasError := true, error := some { message := "new" } }
          (renderPass false (Tree.throws { message := "new" })).1
    ∧ (renderPass false
        (Tree.boundary (retry { hasError := true, error := some { message := "old" } })
          (Tree.throws { message := "new" }))).2
      = errorFallback false (some { message := "new" }) retryCallback :=
  boundary_reentrant false { hasError := true, error := some { message := "old" } }
    (Tree.throws { message := "new" }) { message := "new" } rfl rfl

/-- C9: sibling isolation in the `App` tree: when the chat widget's
`BuggyComponent` raises (`shouldError = true`) and the user-profile
sibling does not, the overall output replaces the chat widget by its
boundary's Fallback View while the dashboard heading and the user
profile render normally, unchanged. -/
theorem sibling_isolation (dev : Bool) :
    ∃ fb, errorFallback dev (some { message := "Random crash!" }) retryCallback
        = Except.ok fb
    ∧ (renderPass dev (appTree true)).2
        = Except.ok (Output.seq (Output.elem "h1" (Output.text "My Dashboard"))
            (Output.seq fb userProfile)) := by
  cases dev with
  | false => exact ⟨_, rfl, rfl⟩
  | true => exact ⟨_, rfl, rfl⟩

/-- C10: with the development flag off, the Fallback View's output does
not depend on the failure's contents: any two non-null failures with
different messages render identically given the same retry callback, so
no technical detail is disclosed outside development. -/
theorem fallback_output_failure_independent (e1 e2 : Failure) (r : Callback)
    (_h : e1.message ≠ e2.message) :
    errorFallback false (some e1) r = errorFallback false (some e2) r :=
  rfl

/-- Witness for C10 at two concrete distinct failures. -/
theorem fallback_output_failure_independent_witness :
    ({ message := "a" } : Failure).message ≠ ({ message := "b" } : Failure).message
    ∧ errorFallback false (some { message := "a" }) retryCallback
        = errorFallback false (some { message := "b" }) retryCallback :=
  ⟨by decide,
   fallback_output_failure_independent { message := "a" } { message := "b" }
     retryCallback (by decide)⟩

end Containment
